import Mathlib

/-!
Shallow embedding of the Oscar-award movie search service
(`server/app/search/es_client.py` and `server/main.py`).

The Python code builds Elasticsearch queries and responses as nested
dict/list/scalar values; we embed those as the inductive `JsonV` type.
The external Elasticsearch engine is a black box: it is modelled as a
function parameter wherever a method calls into it, with `none`
standing for a raised exception (every Python method here wraps its
body in `try/except` and converts exceptions to `None`/`False`).
-/

/-- JSON-like values: the shape of Python dict/list/scalar data used by
the client for queries, documents and raw responses. Numbers are
rationals (the source only ever uses small integers and 2.0). -/
inductive JsonV where
  | null : JsonV
  | bool : Bool → JsonV
  | num : Rat → JsonV
  | str : String → JsonV
  | arr : List JsonV → JsonV
  | obj : List (String × JsonV) → JsonV

/-- `d[k]` on a Python dict, as an `Option`: `none` models the
`KeyError` (or `TypeError` on a non-dict) that the enclosing
`try/except` turns into a failure result. -/
def getKey (j : JsonV) (k : String) : Option JsonV :=
  match j with
  | JsonV.obj kvs => kvs.lookup k
  | _ => none

/-- Chained subscripting `d[k1][k2]...`; `none` as soon as a key is
missing or a non-dict is subscripted. -/
def getPath (j : JsonV) : List String → Option JsonV
  | [] => some j
  | k :: ks =>
    match getKey j k with
    | none => none
    | some v => getPath v ks

/-- `"k" in d` on a Python dict. -/
def hasKey (j : JsonV) (k : String) : Bool :=
  (getKey j k).isSome

/-- Python truthiness of a value (`if response:`): empty containers,
empty strings, zero and `None`/`False` are falsy. -/
def jsonTruthy : JsonV → Bool
  | JsonV.null => false
  | JsonV.bool b => b
  | JsonV.num n => n != 0
  | JsonV.str s => !s.isEmpty
  | JsonV.arr xs => !xs.isEmpty
  | JsonV.obj kvs => !kvs.isEmpty

/-- A document is a Python dict of field name to value. -/
abbrev Doc := List (String × JsonV)

/-- Field lookup in a document. -/
def lookupField (d : Doc) (k : String) : Option JsonV :=
  d.lookup k

/-- Python dict assignment `d[k] = v`: overwrite the existing entry in
place, or append a new entry (insertion order is preserved). -/
def assocSet (kvs : List (String × JsonV)) (k : String) (v : JsonV) :
    List (String × JsonV) :=
  if kvs.any (fun p => p.1 == k) then
    kvs.map (fun p => if p.1 == k then (p.1, v) else p)
  else kvs ++ [(k, v)]

/-- A Python list comprehension / accumulation loop whose body can
raise: the whole loop yields `none` (the `except` branch) as soon as
one element fails, otherwise the list of all results in order. -/
def optMapAll (f : JsonV → Option JsonV) : List JsonV → Option (List JsonV)
  | [] => some []
  | h :: t =>
    match f h with
    | none => none
    | some b =>
      match optMapAll f t with
      | none => none
      | some bs => some (b :: bs)

/-! ## Index lifecycle (EsClient.create_index / delete_index)

The index catalogue of the engine is modelled as an association list from
index name to its mapping and stored documents; `engine_ok` models
whether the engine call in the non-trivial branch raises (the
`except` branch returns `False`). -/

/-- One engine-side index: its mapping and its documents. -/
structure EsIndex where
  mapping : Option JsonV
  docs : List Doc

/-- The catalogue of indices held by the engine. -/
abbrev Store := List (String × EsIndex)

/-- `EsClient.create_index`: early-exit `True` when the index already
exists, otherwise create it (empty) with the given mapping. -/
def create_index (store : Store) (index_name : String)
    (mapping : Option JsonV) (engine_ok : Bool) : Store × Bool :=
  if (store.lookup index_name).isSome then
    (store, true)
  else if engine_ok then
    (store ++ [(index_name, { mapping := mapping, docs := [] })], true)
  else
    (store, false)

/-- `EsClient.delete_index`: early-exit `True` when the index does not
exist, otherwise delete it. -/
def delete_index (store : Store) (index_name : String)
    (engine_ok : Bool) : Store × Bool :=
  if (store.lookup index_name).isNone then
    (store, true)
  else if engine_ok then
    (store.filter (fun p => p.1 != index_name), true)
  else
    (store, false)

/-! ## Document ingestion (EsClient.index_document / bulk_index_documents)

`datetime.now().isoformat()` is modelled as the parameter `now`. -/

/-- The timestamp-stamping step shared by `index_document` and the
`bulk_index_documents` loop: `if "timestamp" not in doc:
doc["timestamp"] = datetime.now().isoformat()`. -/
def stamp_timestamp (now : String) (document : Doc) : Doc :=
  if (lookupField document "timestamp").isSome then document
  else document ++ [("timestamp", JsonV.str now)]

/-- `EsClient.index_document`: stamp the timestamp, then hand the body
to the engine (`self.client.index`), which returns the document id or
raises (`none`, turned into a `None` result). -/
def index_document (engine : String → Doc → Option String → Option String)
    (now index_name : String) (document : Doc) (doc_id : Option String) :
    Option String :=
  engine index_name (stamp_timestamp now document) doc_id

/-- One action of the bulk request: its target index and its source document. -/
structure BulkAction where
  index : String
  source : Doc

/-- The action-building loop of `EsClient.bulk_index_documents`. -/
def build_bulk_actions (now index_name : String) (documents : List Doc) :
    List BulkAction :=
  documents.map (fun doc => { index := index_name, source := stamp_timestamp now doc })

/-- `EsClient.bulk_index_documents`: build the stamped actions, run the
`elasticsearch.helpers.bulk` call (modelled as `bulk`, returning the
success count and the list of failed items, or `none` when it raises),
and return `len(failed) == 0`. -/
def bulk_index_documents (bulk : List BulkAction → Option (Nat × List JsonV))
    (now index_name : String) (documents : List Doc) : Bool :=
  match bulk (build_bulk_actions now index_name documents) with
  | none => false
  | some (_success, failed) => failed.length == 0

/-! ## Query builders -/

/-- The query dict built by `EsClient.simple_search` (Python `if
fields:` is falsy for both `None` and `[]`). -/
def simple_query (search_term : String) (fields : Option (List String)) : JsonV :=
  match fields with
  | some (f :: fs) =>
    JsonV.obj [("multi_match", JsonV.obj
      [("query", JsonV.str search_term),
       ("fields", JsonV.arr ((f :: fs).map JsonV.str))])]
  | _ =>
    JsonV.obj [("query_string", JsonV.obj [("query", JsonV.str search_term)])]

/-- The query dict built by `EsClient.fuzzy_search`. -/
def fuzzy_query (search_term : String) (fields : Option (List String))
    (fuzziness : String) : JsonV :=
  match fields with
  | some (f :: fs) =>
    JsonV.obj [("multi_match", JsonV.obj
      [("query", JsonV.str search_term),
       ("fields", JsonV.arr ((f :: fs).map JsonV.str)),
       ("fuzziness", JsonV.str fuzziness),
       ("prefix_length", JsonV.num 1),
       ("max_expansions", JsonV.num 50)])]
  | _ =>
    JsonV.obj [("fuzzy", JsonV.obj [("_all", JsonV.obj
      [("value", JsonV.str search_term),
       ("fuzziness", JsonV.str fuzziness),
       ("prefix_length", JsonV.num 1),
       ("max_expansions", JsonV.num 50)])])]

/-- The Python default of the `boost_exact` parameter
(`boost_exact: float = 2.0` in `EsClient.advanced_fuzzy_search` and in
the `/advanced-fuzzy-search` route). -/
def boost_exact_default : Rat := 2

/-- The query dict built by `EsClient.advanced_fuzzy_search`
(`if not fields: fields = ["_all"]`, then a bool/should of phrase,
fuzzy and phrase-prefix multi_match clauses). -/
def advanced_fuzzy_query (search_term : String) (fields : Option (List String))
    (fuzziness : String) (boost_exact : Rat) : JsonV :=
  let flds : List String :=
    match fields with
    | some (f :: fs) => f :: fs
    | _ => ["_all"]
  JsonV.obj [("bool", JsonV.obj
    [("should", JsonV.arr
      [JsonV.obj [("multi_match", JsonV.obj
         [("query", JsonV.str search_term),
          ("fields", JsonV.arr (flds.map JsonV.str)),
          ("type", JsonV.str "phrase"),
          ("boost", JsonV.num boost_exact)])],
       JsonV.obj [("multi_match", JsonV.obj
         [("query", JsonV.str search_term),
          ("fields", JsonV.arr (flds.map JsonV.str)),
          ("fuzziness", JsonV.str fuzziness),
          ("prefix_length", JsonV.num 1),
          ("max_expansions", JsonV.num 50)])],
       JsonV.obj [("multi_match", JsonV.obj
         [("query", JsonV.str search_term),
          ("fields", JsonV.arr (flds.map JsonV.str)),
          ("type", JsonV.str "phrase_prefix")])]]),
     ("minimum_should_match", JsonV.num 1)])]

/-- The query dict built by `EsClient.wildcard_search`: the target key
is the f-string `f"{field}.keyword"`. -/
def wildcard_query (pattern field : String) : JsonV :=
  JsonV.obj [("wildcard", JsonV.obj [(field ++ ".keyword", JsonV.obj
    [("value", JsonV.str pattern),
     ("case_insensitive", JsonV.bool true)])])]

/-- The query dict built by `EsClient.regexp_search`. -/
def regexp_query (pattern field : String) : JsonV :=
  JsonV.obj [("regexp", JsonV.obj [(field ++ ".keyword", JsonV.obj
    [("value", JsonV.str pattern),
     ("case_insensitive", JsonV.bool true)])])]

/-- The `should` clause list of a bool query, when present. -/
def should_clauses (q : JsonV) : Option (List JsonV) :=
  match getPath q ["bool", "should"] with
  | some (JsonV.arr cs) => some cs
  | _ => none

/-! ## Raw query execution (EsClient.search)

The engine (`self.client.search`) is modelled from the
black-box store capability of the spec (§4.1 `executeQuery(indexName,
structuredQuery, size, offset)` and §6): for a given index and query
it holds a full ranked hit list, and the API returns the
`offset`/`size` window of it wrapped in the response shape
`{"hits": {"hits": [...]}}`; `none` models a raised transport error. -/

/-- Build the raw response dict around a hit window. -/
def mkHitsResponse (hits : List JsonV) : JsonV :=
  JsonV.obj [("hits", JsonV.obj [("hits", JsonV.arr hits)])]

/-- `EsClient.search(index_name, query, size, from_)`: execute the
query against the engine with the given window; exception → `None`.
The Python defaults are `size=10, from_=0`, applied at each call
site below exactly where the source omits the arguments. -/
def search (engine : String → JsonV → Option (List JsonV))
    (index_name : String) (query : JsonV) (size from_ : Nat) : Option JsonV :=
  match engine index_name query with
  | none => none
  | some ranked => some (mkHitsResponse ((ranked.drop from_).take size))

/-! ## Result normalization

Each `*_search` method checks `if response:` and then walks
`response["hits"]["hits"]` (resp. the suggest section) inside the
`try`; a missing key raises and the `except` returns `None`. The
normalization stage of each method is split out as an explicitly
named `*_normalize` function over the optional raw response.
(Non-list `hits` shapes are modelled as failures: iterating a
non-list raises for the shapes the engine can actually return.) -/

/-- `hit["_source"]` extraction used by the unscored modes. -/
def extract_source (hit : JsonV) : Option JsonV :=
  getKey hit "_source"

/-- Loop body of the scored modes: `result = hit["_source"].copy();
result["_score"] = hit["_score"]; result["_id"] = hit["_id"]`. -/
def scored_hit_result (hit : JsonV) : Option JsonV :=
  match getKey hit "_source" with
  | some (JsonV.obj src) =>
    match getKey hit "_score", getKey hit "_id" with
    | some sc, some id => some (JsonV.obj (assocSet (assocSet src "_score" sc) "_id" id))
    | _, _ => none
  | _ => none

/-- Normalization stage of `EsClient.simple_search`. -/
def simple_search_normalize (response : Option JsonV) : Option (List JsonV) :=
  match response with
  | none => none
  | some r =>
    if jsonTruthy r then
      match getPath r ["hits", "hits"] with
      | some (JsonV.arr hits) => optMapAll extract_source hits
      | _ => none
    else none

/-- Normalization stage of `EsClient.fuzzy_search`. -/
def fuzzy_search_normalize (response : Option JsonV) : Option (List JsonV) :=
  match response with
  | none => none
  | some r =>
    if jsonTruthy r then
      match getPath r ["hits", "hits"] with
      | some (JsonV.arr hits) => optMapAll scored_hit_result hits
      | _ => none
    else none

/-- Normalization stage of `EsClient.advanced_fuzzy_search` (the
source duplicates the fuzzy normalization loop verbatim). -/
def advanced_fuzzy_search_normalize (response : Option JsonV) :
    Option (List JsonV) :=
  match response with
  | none => none
  | some r =>
    if jsonTruthy r then
      match getPath r ["hits", "hits"] with
      | some (JsonV.arr hits) => optMapAll scored_hit_result hits
      | _ => none
    else none

/-- Normalization stage of `EsClient.wildcard_search`. -/
def wildcard_search_normalize (response : Option JsonV) : Option (List JsonV) :=
  match response with
  | none => none
  | some r =>
    if jsonTruthy r then
      match getPath r ["hits", "hits"] with
      | some (JsonV.arr hits) => optMapAll extract_source hits
      | _ => none
    else none

/-- Normalization stage of `EsClient.suggest_search`:
`if response and "suggest" in response:` collect
`response["suggest"]["simple_phrase"][0]["options"][i]["text"]`,
else return `[]`; a key/index error inside the collection raises and
yields `None`. -/
def suggest_search_normalize (response : Option JsonV) : Option (List JsonV) :=
  match response with
  | none => none
  | some r =>
    if jsonTruthy r && hasKey r "suggest" then
      match getPath r ["suggest", "simple_phrase"] with
      | some (JsonV.arr (g :: _)) =>
        match getKey g "options" with
        | some (JsonV.arr opts) => optMapAll (fun o => getKey o "text") opts
        | _ => none
      | _ => none
    else some []

/-! ## Search facade methods -/

/-- `EsClient.simple_search`: build the query, call `self.search`
with its defaults (`size=10, from_=0`), normalize. -/
def simple_search (engine : String → JsonV → Option (List JsonV))
    (index_name search_term : String) (fields : Option (List String)) :
    Option (List JsonV) :=
  simple_search_normalize
    (search engine index_name (simple_query search_term fields) 10 0)

/-- `EsClient.fuzzy_search`: forwards its `size` (default applied by
callers), `from_` stays at its default `0`. -/
def fuzzy_search (engine : String → JsonV → Option (List JsonV))
    (index_name search_term : String) (fields : Option (List String))
    (fuzziness : String) (size : Nat) : Option (List JsonV) :=
  fuzzy_search_normalize
    (search engine index_name (fuzzy_query search_term fields fuzziness) size 0)

/-- `EsClient.advanced_fuzzy_search`. -/
def advanced_fuzzy_search (engine : String → JsonV → Option (List JsonV))
    (index_name search_term : String) (fields : Option (List String))
    (fuzziness : String) (boost_exact : Rat) (size : Nat) :
    Option (List JsonV) :=
  advanced_fuzzy_search_normalize
    (search engine index_name
      (advanced_fuzzy_query search_term fields fuzziness boost_exact) size 0)

/-- `EsClient.wildcard_search`. -/
def wildcard_search (engine : String → JsonV → Option (List JsonV))
    (index_name pattern field : String) (size : Nat) : Option (List JsonV) :=
  wildcard_search_normalize
    (search engine index_name (wildcard_query pattern field) size 0)

/-- `EsClient.regexp_search`. -/
def regexp_search (engine : String → JsonV → Option (List JsonV))
    (index_name pattern field : String) (size : Nat) : Option (List JsonV) :=
  wildcard_search_normalize
    (search engine index_name (regexp_query pattern field) size 0)

/-! ## HTTP layer pieces used by the claims (server/main.py) -/

/-- The index name constant `MOVIE_INDEX`. -/
def MOVIE_INDEX : String := "oscar_movies"

/-- `create_movie_mapping()` from `server/main.py`, transcribed
field by field. -/
def create_movie_mapping : JsonV :=
  JsonV.obj [("properties", JsonV.obj
    [("name", JsonV.obj
       [("type", JsonV.str "text"),
        ("analyzer", JsonV.str "standard"),
        ("fields", JsonV.obj [("keyword", JsonV.obj [("type", JsonV.str "keyword")])])]),
     ("oscar", JsonV.obj [("type", JsonV.str "integer")]),
     ("released_year", JsonV.obj [("type", JsonV.str "integer")]),
     ("poster", JsonV.obj [("type", JsonV.str "keyword")]),
     ("rating", JsonV.obj [("type", JsonV.str "keyword")]),
     ("duration", JsonV.obj [("type", JsonV.str "text")]),
     ("genre", JsonV.obj
       [("type", JsonV.str "text"),
        ("analyzer", JsonV.str "standard"),
        ("fields", JsonV.obj [("keyword", JsonV.obj [("type", JsonV.str "keyword")])])]),
     ("summary", JsonV.obj
       [("type", JsonV.str "text"),
        ("analyzer", JsonV.str "standard")]),
     ("directors", JsonV.obj
       [("type", JsonV.str "text"),
        ("analyzer", JsonV.str "standard"),
        ("fields", JsonV.obj [("keyword", JsonV.obj [("type", JsonV.str "keyword")])])]),
     ("stars", JsonV.obj
       [("type", JsonV.str "text"),
        ("analyzer", JsonV.str "standard"),
        ("fields", JsonV.obj [("keyword", JsonV.obj [("type", JsonV.str "keyword")])])])])]

/-- Declared type of a mapped field. -/
def mappingFieldType (m : JsonV) (f : String) : Option JsonV :=
  getPath m ["properties", f, "type"]

/-- Whether field `f` is mapped as full-text (analyzed) in `m`. -/
def isTextField (m : JsonV) (f : String) : Bool :=
  match mappingFieldType m f with
  | some (JsonV.str t) => t == "text"
  | _ => false

/-- Whether field `f` carries an exact-match `keyword` sub-field. -/
def hasKeywordSubfield (m : JsonV) (f : String) : Bool :=
  match getPath m ["properties", f, "fields", "keyword", "type"] with
  | some (JsonV.str t) => t == "keyword"
  | _ => false

/-- The `/search/{query}` route `search_movies(query, size=10)`:
calls `simple_search` on the fixed field list without forwarding
`size`, then returns `(results[:size], len(results))` — the movie list
and the reported count (`None` results become an empty answer). -/
def search_movies (engine : String → JsonV → Option (List JsonV))
    (query : String) (size : Nat) : List JsonV × Nat :=
  match simple_search engine MOVIE_INDEX query
      (some ["name^2", "genre", "directors", "stars", "summary"]) with
  | none => ([], 0)
  | some results => (results.take size, results.length)

/-! ## Helper lemmas -/

/-- When every element maps successfully, the loop succeeds. -/
theorem optMapAll_isSome (f : JsonV → Option JsonV) :
    ∀ l : List JsonV, (∀ a ∈ l, (f a).isSome) → (optMapAll f l).isSome
  | [], _ => rfl
  | a :: t, h => by
    have ha : (f a).isSome := h a (List.mem_cons_self a t)
    have ht := optMapAll_isSome f t (fun x hx => h x (List.mem_cons_of_mem a hx))
    obtain ⟨b, hb⟩ := Option.isSome_iff_exists.mp ha
    obtain ⟨bs, hbs⟩ := Option.isSome_iff_exists.mp ht
    simp [optMapAll, hb, hbs]

/-- A successful loop yields exactly one output per input. -/
theorem optMapAll_length (f : JsonV → Option JsonV) :
    ∀ (l out : List JsonV), optMapAll f l = some out → out.length = l.length := by
  intro l
  induction l with
  | nil =>
    intro out h
    simp [optMapAll] at h
    simp [← h]
  | cons a t ih =>
    intro out h
    simp only [optMapAll] at h
    split at h
    · exact absurd h (by simp)
    · split at h
      · exact absurd h (by simp)
      · injection h with h
        subst h
        simp [ih _ (by assumption)]

/-- A successful loop maps the i-th input to the i-th output. -/
theorem optMapAll_getElem (f : JsonV → Option JsonV) :
    ∀ (l out : List JsonV), optMapAll f l = some out →
      ∀ i : Nat, out[i]? = (l[i]?).bind f := by
  intro l
  induction l with
  | nil =>
    intro out h i
    simp [optMapAll] at h
    subst h
    simp
  | cons a t ih =>
    intro out h i
    simp only [optMapAll] at h
    cases hfa : f a with
    | none => simp only [hfa] at h; exact absurd h (by simp)
    | some b =>
      simp only [hfa] at h
      cases hrec : optMapAll f t with
      | none => simp only [hrec] at h; exact absurd h (by simp)
      | some bs =>
        simp only [hrec] at h
        injection h with h
        subst h
        cases i with
        | zero => simp [hfa]
        | succ j =>
          simp only [List.getElem?_cons_succ]
          exact ih bs hrec j

/-- Association lookup skips a block where the key is absent. -/
theorem lookup_append_of_none : ∀ (l1 l2 : List (String × JsonV)) (k : String),
    l1.lookup k = none → (l1 ++ l2).lookup k = l2.lookup k
  | [], _, _, _ => rfl
  | (k1, v1) :: t, l2, k, h => by
    rw [List.cons_append]
    simp only [List.lookup] at h ⊢
    cases hb : (k == k1) with
    | true => rw [hb] at h; exact absurd h (by simp)
    | false => rw [hb] at h; exact lookup_append_of_none t l2 k h

/-- Association lookup is unaffected by entries appended after a hit. -/
theorem lookup_append_of_some : ∀ (l1 l2 : List (String × JsonV)) (k : String) (v : JsonV),
    l1.lookup k = some v → (l1 ++ l2).lookup k = some v
  | [], _, _, _, h => by simp [List.lookup] at h
  | (k1, v1) :: t, l2, k, v, h => by
    rw [List.cons_append]
    simp only [List.lookup] at h ⊢
    cases hb : (k == k1) with
    | true => rw [hb] at h; exact h
    | false => rw [hb] at h; exact lookup_append_of_some t l2 k v h

/-- A successful `simple_search` never returns more than the 10 hits of
the default window that `EsClient.search` applies. -/
theorem simple_search_length_le (engine : String → JsonV → Option (List JsonV))
    (index_name search_term : String) (fields : Option (List String))
    (out : List JsonV) (h : simple_search engine index_name search_term fields = some out) :
    out.length ≤ 10 := by
  unfold simple_search at h
  cases heng : engine index_name (simple_query search_term fields) with
  | none =>
    simp only [search, heng] at h
    exact absurd h (by simp [simple_search_normalize])
  | some ranked =>
    simp only [search, heng] at h
    have e : simple_search_normalize (some (mkHitsResponse ((ranked.drop 0).take 10)))
        = optMapAll extract_source ((ranked.drop 0).take 10) := rfl
    rw [e] at h
    rw [optMapAll_length extract_source _ out h]
    rw [List.length_take]
    exact min_le_left _ _

/-! ## Claim theorems -/

/-- Claim C1, counterexample: a bulk-index call whose batch partially
succeeds (1 document indexed, 1 failed) returns the very same value —
the single boolean `false` — as a call whose batch fails completely
(0 indexed, 2 failed), so the outcome is not reported as two separate
counts and a caller cannot distinguish partial success from total
failure. -/
theorem bulk_index_collapses_counts_cex :
    bulk_index_documents (fun _ => some (1, [JsonV.str "document 2 rejected"]))
        "2026-10-12T00:00:00" "oscar_movies"
        [[("name", JsonV.str "Parasite")], [("name", JsonV.str "Moonlight")]]
      = false ∧
    bulk_index_documents (fun _ => some (0, [JsonV.str "document 1 rejected",
                                             JsonV.str "document 2 rejected"]))
        "2026-10-12T00:00:00" "oscar_movies"
        [[("name", JsonV.str "Parasite")], [("name", JsonV.str "Moonlight")]]
      = false ∧
    bulk_index_documents (fun _ => some (1, [JsonV.str "document 2 rejected"]))
        "2026-10-12T00:00:00" "oscar_movies"
        [[("name", JsonV.str "Parasite")], [("name", JsonV.str "Moonlight")]]
      = bulk_index_documents (fun _ => some (0, [JsonV.str "document 1 rejected",
                                                 JsonV.str "document 2 rejected"]))
          "2026-10-12T00:00:00" "oscar_movies"
          [[("name", JsonV.str "Parasite")], [("name", JsonV.str "Moonlight")]] :=
  ⟨rfl, rfl, rfl⟩

/-- Claim C1, amended: every bulk-index call reports its outcome as a
single boolean, true exactly when the failed-item list of the batched
write is empty, so zero failures and operation success are conflated
and the raw counts are not returned to the caller. -/
theorem bulk_index_boolean_outcome
    (bulk : List BulkAction → Option (Nat × List JsonV))
    (now index_name : String) (documents : List Doc)
    (succ : Nat) (failed : List JsonV)
    (h : bulk (build_bulk_actions now index_name documents) = some (succ, failed)) :
    bulk_index_documents bulk now index_name documents = (failed.length == 0) ∧
    (bulk_index_documents bulk now index_name documents = true ↔ failed = []) := by
  have e : bulk_index_documents bulk now index_name documents = (failed.length == 0) := by
    unfold bulk_index_documents
    rw [h]
  refine ⟨e, ?_⟩
  rw [e]
  simp [List.length_eq_zero]

/-- Witness for the amended C1 theorem at a concrete two-document batch
with an empty failed list. -/
theorem bulk_index_boolean_outcome_witness :
    bulk_index_documents (fun _ => some (2, [])) "2026-10-12T00:00:00" "oscar_movies"
        [[("name", JsonV.str "Parasite")], [("name", JsonV.str "Moonlight")]]
      = true :=
  ((bulk_index_boolean_outcome (fun _ => some (2, [])) "2026-10-12T00:00:00"
      "oscar_movies" [[("name", JsonV.str "Parasite")], [("name", JsonV.str "Moonlight")]]
      2 [] rfl).2).mpr rfl

/-- Claim C2, counterexample: a truthy raw response that lacks the
`hits` section makes the simple-search normalizer return the failure
value `none` (the same value a transport failure produces), not an
empty result list; likewise a present `suggest` section lacking the
`simple_phrase` suggestion group fails rather than yielding `[]`. -/
theorem missing_hits_treated_as_failure_cex :
    simple_search_normalize (some (JsonV.obj [("took", JsonV.num 5)])) = none ∧
    suggest_search_normalize (some (JsonV.obj [("suggest", JsonV.obj [])])) = none ∧
    simple_search_normalize none = none :=
  ⟨rfl, rfl, rfl⟩

/-- Claim C2, amended: only the suggestion path treats a missing key as
empty, and only for the top-level `suggest` section; a response
missing the `hits` section, or a `suggest` section missing the
suggestion group, yields the failure value `none`, exactly like a
transport failure. -/
theorem missing_keys_normalization (r g : JsonV)
    (hr : jsonTruthy r = true)
    (hh : getKey r "hits" = none)
    (hs : getKey r "suggest" = none)
    (hg : getKey g "simple_phrase" = none) :
    simple_search_normalize (some r) = none ∧
    suggest_search_normalize (some r) = some [] ∧
    suggest_search_normalize (some (JsonV.obj [("suggest", g)])) = none ∧
    simple_search_normalize none = none ∧
    suggest_search_normalize none = none := by
  refine ⟨?_, ?_, ?_, rfl, rfl⟩
  · simp [simple_search_normalize, getPath, hr, hh]
  · simp [suggest_search_normalize, hasKey, hr, hs]
  · have e : getKey (JsonV.obj [("suggest", g)]) "suggest" = some g := rfl
    simp [suggest_search_normalize, hasKey, getPath, jsonTruthy, e, hg]

/-- Witness for the amended C2 theorem at a concrete response without
`hits` and `suggest` keys and a concrete suggestion section without a
`simple_phrase` group. -/
theorem missing_keys_normalization_witness :
    simple_search_normalize (some (JsonV.obj [("timed_out", JsonV.bool false)])) = none ∧
    suggest_search_normalize (some (JsonV.obj [("timed_out", JsonV.bool false)])) = some [] ∧
    suggest_search_normalize (some (JsonV.obj [("suggest", JsonV.obj [("other", JsonV.num 1)])]))
      = none ∧
    simple_search_normalize none = none ∧
    suggest_search_normalize none = none :=
  missing_keys_normalization (JsonV.obj [("timed_out", JsonV.bool false)])
    (JsonV.obj [("other", JsonV.num 1)]) rfl rfl rfl rfl

/-- Claim C3, counterexample: `summary` and `duration` are full-text
(analyzed) fields of the movie mapping, yet neither is provisioned
with an exact-match `keyword` sub-field. -/
theorem text_field_without_keyword_cex :
    isTextField create_movie_mapping "summary" = true ∧
    hasKeywordSubfield create_movie_mapping "summary" = false ∧
    isTextField create_movie_mapping "duration" = true ∧
    hasKeywordSubfield create_movie_mapping "duration" = false :=
  ⟨rfl, rfl, rfl, rfl⟩

/-- Claim C3, amended: of the six full-text fields in the movie
mapping, exactly `name`, `genre`, `directors` and `stars` carry an
exact-match `keyword` sub-field, while the full-text fields `summary`
and `duration` carry none, so wildcard or pattern search on those two
fields targets a non-existent sub-field. -/
theorem movie_mapping_keyword_subfields :
    isTextField create_movie_mapping "name" = true ∧
    hasKeywordSubfield create_movie_mapping "name" = true ∧
    isTextField create_movie_mapping "genre" = true ∧
    hasKeywordSubfield create_movie_mapping "genre" = true ∧
    isTextField create_movie_mapping "directors" = true ∧
    hasKeywordSubfield create_movie_mapping "directors" = true ∧
    isTextField create_movie_mapping "stars" = true ∧
    hasKeywordSubfield create_movie_mapping "stars" = true ∧
    isTextField create_movie_mapping "summary" = true ∧
    hasKeywordSubfield create_movie_mapping "summary" = false ∧
    isTextField create_movie_mapping "duration" = true ∧
    hasKeywordSubfield create_movie_mapping "duration" = false :=
  ⟨rfl, rfl, rfl, rfl, rfl, rfl, rfl, rfl, rfl, rfl, rfl, rfl⟩

/-- Claim C4: for every raw hit list, every normalizer (simple,
wildcard, fuzzy, advanced-fuzzy) succeeds on well-formed hits and
returns exactly one result per raw hit, with the i-th result derived
from the i-th hit: no re-sorting, dropping or duplication. -/
theorem normalizer_preserves_hit_order (hits : List JsonV)
    (hsrc : ∀ hit ∈ hits, (extract_source hit).isSome)
    (hscore : ∀ hit ∈ hits, (scored_hit_result hit).isSome) :
    ∃ plain scored,
      simple_search_normalize (some (mkHitsResponse hits)) = some plain ∧
      wildcard_search_normalize (some (mkHitsResponse hits)) = some plain ∧
      fuzzy_search_normalize (some (mkHitsResponse hits)) = some scored ∧
      advanced_fuzzy_search_normalize (some (mkHitsResponse hits)) = some scored ∧
      plain.length = hits.length ∧ scored.length = hits.length ∧
      (∀ i : Nat, plain[i]? = (hits[i]?).bind extract_source) ∧
      (∀ i : Nat, scored[i]? = (hits[i]?).bind scored_hit_result) := by
  obtain ⟨plain, hp⟩ := Option.isSome_iff_exists.mp (optMapAll_isSome extract_source hits hsrc)
  obtain ⟨scored, hs⟩ :=
    Option.isSome_iff_exists.mp (optMapAll_isSome scored_hit_result hits hscore)
  have e1 : simple_search_normalize (some (mkHitsResponse hits))
      = optMapAll extract_source hits := rfl
  have e2 : wildcard_search_normalize (some (mkHitsResponse hits))
      = optMapAll extract_source hits := rfl
  have e3 : fuzzy_search_normalize (some (mkHitsResponse hits))
      = optMapAll scored_hit_result hits := rfl
  have e4 : advanced_fuzzy_search_normalize (some (mkHitsResponse hits))
      = optMapAll scored_hit_result hits := rfl
  exact ⟨plain, scored,
    e1.trans hp, e2.trans hp, e3.trans hs, e4.trans hs,
    optMapAll_length extract_source hits plain hp,
    optMapAll_length scored_hit_result hits scored hs,
    optMapAll_getElem extract_source hits plain hp,
    optMapAll_getElem scored_hit_result hits scored hs⟩

/-- Witness for the C4 theorem at a concrete two-hit response. -/
theorem normalizer_preserves_hit_order_witness :
    ∃ plain scored,
      simple_search_normalize (some (mkHitsResponse
        [JsonV.obj [("_source", JsonV.obj [("name", JsonV.str "Parasite")]),
                    ("_score", JsonV.num 3), ("_id", JsonV.str "1")],
         JsonV.obj [("_source", JsonV.obj [("name", JsonV.str "Moonlight")]),
                    ("_score", JsonV.num 2), ("_id", JsonV.str "2")]])) = some plain ∧
      wildcard_search_normalize (some (mkHitsResponse
        [JsonV.obj [("_source", JsonV.obj [("name", JsonV.str "Parasite")]),
                    ("_score", JsonV.num 3), ("_id", JsonV.str "1")],
         JsonV.obj [("_source", JsonV.obj [("name", JsonV.str "Moonlight")]),
                    ("_score", JsonV.num 2), ("_id", JsonV.str "2")]])) = some plain ∧
      fuzzy_search_normalize (some (mkHitsResponse
        [JsonV.obj [("_source", JsonV.obj [("name", JsonV.str "Parasite")]),
                    ("_score", JsonV.num 3), ("_id", JsonV.str "1")],
         JsonV.obj [("_source", JsonV.obj [("name", JsonV.str "Moonlight")]),
                    ("_score", JsonV.num 2), ("_id", JsonV.str "2")]])) = some scored ∧
      advanced_fuzzy_search_normalize (some (mkHitsResponse
        [JsonV.obj [("_source", JsonV.obj [("name", JsonV.str "Parasite")]),
                    ("_score", JsonV.num 3), ("_id", JsonV.str "1")],
         JsonV.obj [("_source", JsonV.obj [("name", JsonV.str "Moonlight")]),
                    ("_score", JsonV.num 2), ("_id", JsonV.str "2")]])) = some scored ∧
      plain.length = 2 ∧ scored.length = 2 ∧
      (∀ i : Nat, plain[i]? =
        (([JsonV.obj [("_source", JsonV.obj [("name", JsonV.str "Parasite")]),
                      ("_score", JsonV.num 3), ("_id", JsonV.str "1")],
           JsonV.obj [("_source", JsonV.obj [("name", JsonV.str "Moonlight")]),
                      ("_score", JsonV.num 2), ("_id", JsonV.str "2")]] : List JsonV)[i]?).bind
            extract_source) ∧
      (∀ i : Nat, scored[i]? =
        (([JsonV.obj [("_source", JsonV.obj [("name", JsonV.str "Parasite")]),
                      ("_score", JsonV.num 3), ("_id", JsonV.str "1")],
           JsonV.obj [("_source", JsonV.obj [("name", JsonV.str "Moonlight")]),
                      ("_score", JsonV.num 2), ("_id", JsonV.str "2")]] : List JsonV)[i]?).bind
            scored_hit_result) :=
  normalizer_preserves_hit_order
    [JsonV.obj [("_source", JsonV.obj [("name", JsonV.str "Parasite")]),
                ("_score", JsonV.num 3), ("_id", JsonV.str "1")],
     JsonV.obj [("_source", JsonV.obj [("name", JsonV.str "Moonlight")]),
                ("_score", JsonV.num 2), ("_id", JsonV.str "2")]]
    (by decide) (by decide)

/-- Claim C5: creating an index that already exists is a no-op success
that leaves the catalogue (hence the index and all its documents)
unchanged, and deleting a non-existent index is a no-op success. -/
theorem index_lifecycle_idempotent (store : Store) (name1 name2 : String)
    (mapping : Option JsonV) (ok1 ok2 : Bool)
    (hex : (store.lookup name1).isSome = true)
    (habs : (store.lookup name2).isNone = true) :
    create_index store name1 mapping ok1 = (store, true) ∧
    delete_index store name2 ok2 = (store, true) := by
  constructor
  · simp [create_index, hex]
  · simp [delete_index, habs]

/-- Witness for the C5 theorem on a concrete one-index catalogue. -/
theorem index_lifecycle_idempotent_witness :
    create_index [("oscar_movies", { mapping := some create_movie_mapping, docs := [] })]
        "oscar_movies" none true
      = ([("oscar_movies", { mapping := some create_movie_mapping, docs := [] })], true) ∧
    delete_index [("oscar_movies", { mapping := some create_movie_mapping, docs := [] })]
        "other_index" true
      = ([("oscar_movies", { mapping := some create_movie_mapping, docs := [] })], true) :=
  index_lifecycle_idempotent _ _ _ _ _ _ rfl rfl

/-- Claim C6: at ingestion (single or bulk), a document without a
timestamp field is stored with the ingestion wall-clock time as its
timestamp and every other field unchanged, while a document that
already carries a timestamp is stored exactly as given; both
`index_document` and the bulk action builder apply this stamping. -/
theorem ingestion_timestamp_stamping (now : String) (doc : Doc) :
    (lookupField doc "timestamp" = none →
      lookupField (stamp_timestamp now doc) "timestamp" = some (JsonV.str now) ∧
      ∀ k, k ≠ "timestamp" → lookupField (stamp_timestamp now doc) k = lookupField doc k) ∧
    (∀ v, lookupField doc "timestamp" = some v → stamp_timestamp now doc = doc) ∧
    (∀ engine idx did, index_document engine now idx doc did
        = engine idx (stamp_timestamp now doc) did) ∧
    (∀ idx docs, build_bulk_actions now idx docs
        = docs.map (fun d => { index := idx, source := stamp_timestamp now d })) := by
  refine ⟨?_, ?_, fun _ _ _ => rfl, fun _ _ => rfl⟩
  · intro habs
    have hstamp : stamp_timestamp now doc = doc ++ [("timestamp", JsonV.str now)] := by
      simp [stamp_timestamp, habs]
    constructor
    · rw [hstamp]
      unfold lookupField at habs ⊢
      rw [lookup_append_of_none doc _ _ habs]
      simp [List.lookup]
    · intro k hk
      rw [hstamp]
      unfold lookupField
      cases hdk : doc.lookup k with
      | some v => exact lookup_append_of_some doc _ k v hdk
      | none =>
        rw [lookup_append_of_none doc _ _ hdk]
        simp [List.lookup, beq_eq_false_iff_ne.mpr hk]
  · intro v hv
    have hsome : (lookupField doc "timestamp").isSome = true := by rw [hv]; rfl
    simp [stamp_timestamp, hsome]

/-- Witness for the C6 theorem: a document without a timestamp gets the
ingestion time, a document with one is stored unchanged. -/
theorem ingestion_timestamp_stamping_witness :
    lookupField (stamp_timestamp "2026-10-12T00:00:00" [("name", JsonV.str "Parasite")])
        "timestamp" = some (JsonV.str "2026-10-12T00:00:00") ∧
    stamp_timestamp "2026-10-12T00:00:00"
        [("name", JsonV.str "Oppenheimer"), ("timestamp", JsonV.str "2024-01-01")]
      = [("name", JsonV.str "Oppenheimer"), ("timestamp", JsonV.str "2024-01-01")] :=
  ⟨((ingestion_timestamp_stamping "2026-10-12T00:00:00" [("name", JsonV.str "Parasite")]).1
      rfl).1,
   (ingestion_timestamp_stamping "2026-10-12T00:00:00"
      [("name", JsonV.str "Oppenheimer"), ("timestamp", JsonV.str "2024-01-01")]).2.1
     (JsonV.str "2024-01-01") rfl⟩

/-- Claim C7: for every fuzzy-search call with a non-empty field list
the built query is a multi-field match over exactly those fields
carrying the fuzziness of the caller, a prefix-length constraint of 1
and an expansion cap of 50, and with no field list it falls back to a
single-field fuzzy query with the same three parameters. -/
theorem fuzzy_query_shape (engine : String → JsonV → Option (List JsonV))
    (index_name term fz f : String) (fs : List String) (size : Nat) :
    getPath (fuzzy_query term (some (f :: fs)) fz) ["multi_match", "prefix_length"]
      = some (JsonV.num 1) ∧
    getPath (fuzzy_query term (some (f :: fs)) fz) ["multi_match", "max_expansions"]
      = some (JsonV.num 50) ∧
    getPath (fuzzy_query term (some (f :: fs)) fz) ["multi_match", "fuzziness"]
      = some (JsonV.str fz) ∧
    getPath (fuzzy_query term (some (f :: fs)) fz) ["multi_match", "fields"]
      = some (JsonV.arr ((f :: fs).map JsonV.str)) ∧
    getKey (fuzzy_query term (some (f :: fs)) fz) "fuzzy" = none ∧
    getKey (fuzzy_query term none fz) "multi_match" = none ∧
    getPath (fuzzy_query term none fz) ["fuzzy", "_all", "value"] = some (JsonV.str term) ∧
    getPath (fuzzy_query term none fz) ["fuzzy", "_all", "prefix_length"]
      = some (JsonV.num 1) ∧
    getPath (fuzzy_query term none fz) ["fuzzy", "_all", "max_expansions"]
      = some (JsonV.num 50) ∧
    getPath (fuzzy_query term none fz) ["fuzzy", "_all", "fuzziness"]
      = some (JsonV.str fz) ∧
    fuzzy_search engine index_name term (some (f :: fs)) fz size
      = fuzzy_search_normalize
          (search engine index_name (fuzzy_query term (some (f :: fs)) fz) size 0) :=
  ⟨rfl, rfl, rfl, rfl, rfl, rfl, rfl, rfl, rfl, rfl, rfl⟩

/-- Claim C8: every advanced-fuzzy-search query is a boolean `should`
of exactly three alternatives — a phrase multi-match boosted by the
boost factor of the caller (whose Python default is 2.0), a fuzzy
multi-match with prefix length 1 and expansion cap 50, and a
phrase-prefix multi-match — over one common field list, with
`minimum_should_match` equal to 1. -/
theorem advanced_fuzzy_query_shape (term fz : String) (b : Rat)
    (flds : Option (List String)) :
    (∃ c1 c2 c3,
      should_clauses (advanced_fuzzy_query term flds fz b) = some [c1, c2, c3] ∧
      getPath c1 ["multi_match", "type"] = some (JsonV.str "phrase") ∧
      getPath c1 ["multi_match", "boost"] = some (JsonV.num b) ∧
      getPath c1 ["multi_match", "query"] = some (JsonV.str term) ∧
      getPath c2 ["multi_match", "fuzziness"] = some (JsonV.str fz) ∧
      getPath c2 ["multi_match", "prefix_length"] = some (JsonV.num 1) ∧
      getPath c2 ["multi_match", "max_expansions"] = some (JsonV.num 50) ∧
      getPath c3 ["multi_match", "type"] = some (JsonV.str "phrase_prefix") ∧
      getPath c1 ["multi_match", "fields"] = getPath c2 ["multi_match", "fields"] ∧
      getPath c2 ["multi_match", "fields"] = getPath c3 ["multi_match", "fields"]) ∧
    getPath (advanced_fuzzy_query term flds fz b) ["bool", "minimum_should_match"]
      = some (JsonV.num 1) ∧
    (∃ d1 d2 d3,
      should_clauses (advanced_fuzzy_query term flds fz boost_exact_default)
        = some [d1, d2, d3] ∧
      getPath d1 ["multi_match", "boost"] = some (JsonV.num 2)) ∧
    boost_exact_default = 2 :=
  ⟨⟨_, _, _, rfl, rfl, rfl, rfl, rfl, rfl, rfl, rfl, rfl, rfl⟩, rfl,
   ⟨_, _, _, rfl, rfl⟩, rfl⟩

/-- Claim C9: wildcard and pattern queries on a field `f` target only
the exact-match sub-field `f.keyword` — a key distinct from the
analyzed field name `f`, which is not targeted — and enable
case-insensitive matching. -/
theorem wildcard_regexp_target_keyword_subfield (p f : String) :
    (∃ w, getKey (wildcard_query p f) "wildcard"
        = some (JsonV.obj [(f ++ ".keyword", w)])) ∧
    getPath (wildcard_query p f) ["wildcard", f ++ ".keyword", "case_insensitive"]
      = some (JsonV.bool true) ∧
    getPath (wildcard_query p f) ["wildcard", f ++ ".keyword", "value"]
      = some (JsonV.str p) ∧
    getPath (wildcard_query p f) ["wildcard", f] = none ∧
    (∃ w, getKey (regexp_query p f) "regexp"
        = some (JsonV.obj [(f ++ ".keyword", w)])) ∧
    getPath (regexp_query p f) ["regexp", f ++ ".keyword", "case_insensitive"]
      = some (JsonV.bool true) ∧
    getPath (regexp_query p f) ["regexp", f ++ ".keyword", "value"]
      = some (JsonV.str p) ∧
    getPath (regexp_query p f) ["regexp", f] = none ∧
    f ++ ".keyword" ≠ f := by
  have hne : f ++ ".keyword" ≠ f := by
    intro h
    have h2 := congrArg String.length h
    rw [String.length_append] at h2
    simp at h2
    exact absurd h2 (by decide)
  have hbeq : (f == f ++ ".keyword") = false := by
    rw [beq_eq_false_iff_ne]
    exact fun h => hne h.symm
  refine ⟨⟨_, rfl⟩, ?_, ?_, ?_, ⟨_, rfl⟩, ?_, ?_, ?_, hne⟩ <;>
    simp [wildcard_query, regexp_query, getPath, getKey, List.lookup, hbeq]

/-- Claim C10: the `/search/{query}` route returns at most 10 movies
regardless of the requested size — `simple_search` executes the store
query with the default window of 10 and the requested size only
truncates afterwards — so any requested size of at least 10 yields
exactly the same response as size 10. -/
theorem simple_search_size_capped (engine : String → JsonV → Option (List JsonV))
    (query : String) (size : Nat) :
    (search_movies engine query size).1.length ≤ 10 ∧
    (10 ≤ size → search_movies engine query size = search_movies engine query 10) := by
  cases hres : simple_search engine MOVIE_INDEX query
      (some ["name^2", "genre", "directors", "stars", "summary"]) with
  | none =>
    constructor
    · simp [search_movies, hres]
    · intro _
      simp [search_movies, hres]
  | some results =>
    have hlen : results.length ≤ 10 :=
      simple_search_length_le engine MOVIE_INDEX query _ results hres
    constructor
    · simp only [search_movies, hres]
      rw [List.length_take]
      exact le_trans (min_le_right _ _) hlen
    · intro hsz
      simp only [search_movies, hres]
      rw [List.take_of_length_le hlen, List.take_of_length_le (le_trans hlen hsz)]

/-- Witness for the C10 theorem: an engine holding 15 ranked hits and a
requested size of 15 still yield at most 10 movies, identical to the
size-10 response. -/
theorem simple_search_size_capped_witness :
    (search_movies
        (fun _ _ => some (List.replicate 15 (JsonV.obj [("_source",
          JsonV.obj [("name", JsonV.str "movie")])])))
        "parasite" 15).1.length ≤ 10 ∧
    search_movies
        (fun _ _ => some (List.replicate 15 (JsonV.obj [("_source",
          JsonV.obj [("name", JsonV.str "movie")])])))
        "parasite" 15
      = search_movies
          (fun _ _ => some (List.replicate 15 (JsonV.obj [("_source",
            JsonV.obj [("name", JsonV.str "movie")])])))
          "parasite" 10 :=
  ⟨(simple_search_size_capped _ "parasite" 15).1,
   (simple_search_size_capped _ "parasite" 15).2 (by decide)⟩
